import Mathlib

/-!
Verification of the scene-selection state machine and scene registry of the
learningopengl repository (src/PROJECT1/main.cpp and the two unnamed variants).

The embedding models the pure data and control logic of the program:
  * `WindowSceneDisplay` (an `unsigned short int` cursor, kept in 0..2 by the
    guarded increments/decrements of `keyCallbackListener`);
  * the GLFW key callback `keyCallbackListener` (main.cpp lines 292-311);
  * the scene table built by `getFiguresShapes` (main.cpp lines 318-421) and
    the constant `SCENE_BACKGROUND` table (main.cpp lines 133-137).

GPU-side effects (shader handles, VBO/VAO ids, draw calls) belong to the
external rendering backend and carry no program logic; they are not part of
the data model here.  Float literals from the source are embedded as the
exact rationals the decimal tokens denote, which is faithful for the
properties at stake (lengths, structural identity, table shape).
-/

namespace LearningOpenGL

/-- GLFW action code for a key-press event (`GLFW_PRESS`). -/
def GLFW_PRESS : Int := 1

/-- GLFW action code for a key-release event (`GLFW_RELEASE`). -/
def GLFW_RELEASE : Int := 0

/-- GLFW action code for a key-repeat event (`GLFW_REPEAT`). -/
def GLFW_REPEAT : Int := 2

/-- GLFW key code for the escape key (`GLFW_KEY_ESCAPE`). -/
def GLFW_KEY_ESCAPE : Int := 256

/-- GLFW key code for the right-arrow key (`GLFW_KEY_RIGHT`). -/
def GLFW_KEY_RIGHT : Int := 262

/-- GLFW key code for the left-arrow key (`GLFW_KEY_LEFT`). -/
def GLFW_KEY_LEFT : Int := 263

/--
The mutable program state touched by `keyCallbackListener`:
  * `windowSceneDisplay` — the global `SceneRenderer WindowSceneDisplay = 0`
    (main.cpp line 77), an `unsigned short int`; the guards `> 0` before `--`
    and `< 2` before `++` mean the C value never wraps, so `Nat` is exact;
  * `windowShouldClose` — the GLFW window-should-close flag set by
    `glfwSetWindowShouldClose(window, true)`;
  * `log` — the sequence of scene indices printed by
    `cout << "Escena actual: " << WindowSceneDisplay << endl` (line 309).
-/
structure AppState where
  windowSceneDisplay : Nat
  windowShouldClose : Bool
  log : List Nat
deriving Repr, DecidableEq

/-- State at program start: `WindowSceneDisplay = 0`, window open, no output. -/
def initialState : AppState :=
  { windowSceneDisplay := 0, windowShouldClose := false, log := [] }

/--
`keyCallbackListener` (main.cpp lines 292-311, identical in both unnamed
variants).  On `GLFW_PRESS` the switch decrements the cursor on LEFT when it
is positive, increments it on RIGHT when below 2, sets the should-close flag
on ESCAPE, and then unconditionally prints the (possibly updated) cursor.
Any other action returns with no effect.
-/
def keyCallbackListener (st : AppState) (key scanCode action mods : Int) : AppState :=
  if action = GLFW_PRESS then
    let st1 :=
      if key = GLFW_KEY_LEFT then
        if st.windowSceneDisplay > 0 then
          { st with windowSceneDisplay := st.windowSceneDisplay - 1 }
        else st
      else if key = GLFW_KEY_RIGHT then
        if st.windowSceneDisplay < 2 then
          { st with windowSceneDisplay := st.windowSceneDisplay + 1 }
        else st
      else if key = GLFW_KEY_ESCAPE then
        { st with windowShouldClose := true }
      else st
    { st1 with log := st1.log ++ [st1.windowSceneDisplay] }
  else st

/-- One keyboard event as delivered by GLFW to the callback. -/
structure InputEvent where
  key : Int
  scanCode : Int
  action : Int
  mods : Int
deriving Repr, DecidableEq

/-- Fold a finite event sequence through the key callback, as `glfwPollEvents`
dispatches pending events in order within each loop iteration. -/
def processEvents (st : AppState) (evs : List InputEvent) : AppState :=
  evs.foldl (fun s e => keyCallbackListener s e.key e.scanCode e.action e.mods) st

/-- A right-arrow press: the `Advance` trigger. -/
def advanceEvent : InputEvent :=
  { key := GLFW_KEY_RIGHT, scanCode := 0, action := GLFW_PRESS, mods := 0 }

/-- A left-arrow press: the `Retreat` trigger. -/
def retreatEvent : InputEvent :=
  { key := GLFW_KEY_LEFT, scanCode := 0, action := GLFW_PRESS, mods := 0 }

/-- An escape press: the `Quit` trigger. -/
def quitEvent : InputEvent :=
  { key := GLFW_KEY_ESCAPE, scanCode := 0, action := GLFW_PRESS, mods := 0 }

/--
The data fields of the C `Figure` struct (main.cpp lines 51-58): the vertex
coordinate array and the fragment shader source text.  The remaining fields
(`VBO`, `VAO`, `vertexShader`, `fragmentShader`) are GPU object handles
produced by the external rendering backend (`glCreateShader`, `glGenBuffers`)
and carry no data of their own.
-/
structure Figure where
  figureVertex : List Rat
  fragmentShaderSource : String
deriving Repr, DecidableEq

/-- `typedef float VertexArray[27]` (main.cpp line 43): a partially
initialized C array of 27 floats has its remaining elements zero-initialized. -/
def padTo27 (xs : List Rat) : List Rat := xs ++ List.replicate (27 - xs.length) 0

/--
`getFiguresShapes(SceneRenderer figure, int coordFactor)` (main.cpp lines
318-421): allocates three `Figure`s and fills all three from the literal
initializers below.  Neither parameter influences the data written — `figure`
only selects which entry's VAO/VBO the backend binds, and `coordFactor` is
never read — which the purity theorems below make explicit by quantifying
over both.
-/
def getFiguresShapes (figure : Nat) (coordFactor : Int) : List Figure :=
  [ { figureVertex := padTo27
        [-0.5, -0.5, 0.0,
          0.5, -0.5, 0.0,
          0.0, 0.5, 0.0],
      fragmentShaderSource :=
        "#version 330 core\nout vec4 FragColor;\nvoid main()\n\x7b\n   FragColor = vec4(1.0f, 0.5f, 0.2f, 1.0f);\n\x7d\x00" },
    { figureVertex := padTo27
        [0.5, 0.5, 0.0,
          0.5, -0.5, 0.0,
          -0.5, 0.5, 0.0,
          0.5, -0.5, 0.0,
          -0.5, -0.5, 0.0,
          -0.5, 0.5, 0.0],
      fragmentShaderSource :=
        "#version 330 core\nout vec4 FragColor;\nvoid main()\n\x7b\n   FragColor = vec4(0.0f, 0.0f, 0.98f, 1.0f);\n\x7d\x00" },
    { figureVertex := padTo27
        [0.3, 0.2, 0.0,
          0.2, -0.3, 0.0,
          -0.3, 0.2, 0.0,
          0.2, -0.3, 0.0,
          -0.2, -0.3, 0.0,
          -0.3, 0.2, 0.0,
          0.0, 0.5, 0.0,
          -0.3, 0.2, 0.0,
          0.3, 0.2, 0.0],
      fragmentShaderSource :=
        "#version 330 core\nout vec4 FragColor;\nvoid main()\n\x7b\n   FragColor = vec4(0.0f, 0.0f, 0.98f, 1.0f);\n\x7d\x00" } ]

/-- `const WindowBackground SCENE_BACKGROUND[3][4]` (main.cpp lines 133-137):
a per-scene RGBA background color table, constant for the process lifetime. -/
def SCENE_BACKGROUND : List (List Rat) :=
  [ [0.2, 0.3, 0.3, 1.0],
    [1.0, 0.643, 0.0, 1.0],
    [0.0, 1.0, 0.655, 1.0] ]

/-- One scene as the spec's data model assembles it: the vertex geometry and
fragment shader of the figure at an index together with the background color
at the same index. -/
structure SceneDefinition where
  vertices : List Rat
  backgroundColor : List Rat
  fragmentShaderSource : String
deriving Repr, DecidableEq

/-- Registry lookup as the render loop performs it each iteration: index both
the figure table returned by `getFiguresShapes` (called there with the
current cursor and cursor + 1 as arguments) and `SCENE_BACKGROUND`. -/
def sceneRegistryGet (figure : Nat) (coordFactor : Int) (i : Nat) : Option SceneDefinition :=
  match (getFiguresShapes figure coordFactor)[i]?, SCENE_BACKGROUND[i]? with
  | some f, some bg =>
      some { vertices := f.figureVertex, backgroundColor := bg,
             fragmentShaderSource := f.fragmentShaderSource }
  | _, _ => none

/-- The minimal-triangle variant (the unnamed part whose `VertexArray` is
`typedef float VertexArray[9]`, line 43 there): its `getFiguresShapes`
initializes only `figures[0]`, whose vertex array holds exactly the nine
coordinates of one triangle (lines 321-329 of that file). -/
def minimalTriangleVertices : List Rat :=
  [-0.5, -0.5, 0.0,
    0.5, -0.5, 0.0,
    0.0, 0.5, 0.0]

/- Helper lemmas on the callback and event folding. -/

theorem keyCallback_cursor_le_two (st : AppState) (key scanCode action mods : Int)
    (h : st.windowSceneDisplay ≤ 2) :
    (keyCallbackListener st key scanCode action mods).windowSceneDisplay ≤ 2 := by
  unfold keyCallbackListener
  split
  · split
    · split <;> simp <;> omega
    · split
      · split <;> simp <;> omega
      · split <;> simp [h] <;> omega
  · exact h

theorem processEvents_cursor_le_two (evs : List InputEvent) (st : AppState)
    (h : st.windowSceneDisplay ≤ 2) :
    (processEvents st evs).windowSceneDisplay ≤ 2 := by
  induction evs generalizing st with
  | nil => exact h
  | cons e rest ih =>
      exact ih _ (keyCallback_cursor_le_two st e.key e.scanCode e.action e.mods h)

theorem processEvents_cons (st : AppState) (e : InputEvent) (evs : List InputEvent) :
    processEvents st (e :: evs)
      = processEvents (keyCallbackListener st e.key e.scanCode e.action e.mods) evs := rfl

theorem keyCallback_advance_cursor (st : AppState) (scanCode mods : Int)
    (h : st.windowSceneDisplay ≤ 2) :
    (keyCallbackListener st GLFW_KEY_RIGHT scanCode GLFW_PRESS mods).windowSceneDisplay
      = min (st.windowSceneDisplay + 1) 2 := by
  by_cases hlt : st.windowSceneDisplay < 2 <;>
    simp [keyCallbackListener, GLFW_PRESS, GLFW_KEY_LEFT, GLFW_KEY_RIGHT, GLFW_KEY_ESCAPE,
      hlt] <;>
    omega

theorem keyCallback_retreat_cursor (st : AppState) (scanCode mods : Int) :
    (keyCallbackListener st GLFW_KEY_LEFT scanCode GLFW_PRESS mods).windowSceneDisplay
      = st.windowSceneDisplay - 1 := by
  by_cases hpos : 0 < st.windowSceneDisplay <;>
    simp [keyCallbackListener, GLFW_PRESS, GLFW_KEY_LEFT, GLFW_KEY_RIGHT, GLFW_KEY_ESCAPE,
      hpos] <;>
    omega

theorem retreat_iter_cursor (n : Nat) (st : AppState) :
    (processEvents st (List.replicate n retreatEvent)).windowSceneDisplay
      = st.windowSceneDisplay - n := by
  induction n generalizing st with
  | zero => simp [processEvents]
  | succ k ih =>
      rw [List.replicate_succ, processEvents_cons, ih]
      simp only [retreatEvent]
      rw [keyCallback_retreat_cursor]
      omega

theorem advance_iter_cursor (n : Nat) (st : AppState) (h : st.windowSceneDisplay ≤ 2) :
    (processEvents st (List.replicate n advanceEvent)).windowSceneDisplay
      = min (st.windowSceneDisplay + n) 2 := by
  induction n generalizing st with
  | zero => simp [processEvents]; omega
  | succ k ih =>
      rw [List.replicate_succ, processEvents_cons,
        ih _ (keyCallback_cursor_le_two st _ _ _ _ h)]
      simp only [advanceEvent]
      rw [keyCallback_advance_cursor st _ _ h]
      omega

/-- C1: starting from the initial state 0, after any finite sequence of input
events the cursor lies in the closed range [0, 2] (N = 3); no transition can
move it out of range. -/
theorem scene_cursor_always_in_range (evs : List InputEvent) :
    0 ≤ (processEvents initialState evs).windowSceneDisplay ∧
      (processEvents initialState evs).windowSceneDisplay ≤ 2 :=
  ⟨Nat.zero_le _, processEvents_cursor_le_two evs initialState (by simp [initialState])⟩

/-- C2: for every cursor state s in [0, 2], a right-arrow press (Advance) maps
s to min(s + 1, 2) — saturating at the last state — and three Advance presses
from the initial state 0 end at 2, not 3. -/
theorem advance_saturating (s : Nat) (b : Bool) (l : List Nat) (scanCode mods : Int)
    (h : s ≤ 2) :
    (keyCallbackListener ⟨s, b, l⟩ GLFW_KEY_RIGHT scanCode GLFW_PRESS mods).windowSceneDisplay
        = min (s + 1) 2
    ∧ (processEvents initialState
        [advanceEvent, advanceEvent, advanceEvent]).windowSceneDisplay = 2 :=
  ⟨keyCallback_advance_cursor ⟨s, b, l⟩ scanCode mods h, by decide⟩

theorem advance_saturating_witness :
    (2 : Nat) ≤ 2 ∧
      ((keyCallbackListener ⟨2, false, []⟩ GLFW_KEY_RIGHT 0 GLFW_PRESS 0).windowSceneDisplay
          = min (2 + 1) 2
        ∧ (processEvents initialState
            [advanceEvent, advanceEvent, advanceEvent]).windowSceneDisplay = 2) :=
  ⟨by decide, advance_saturating 2 false [] 0 0 (by decide)⟩

/-- C3: for every cursor state s in [0, 2], a left-arrow press (Retreat) maps
s to max(s - 1, 0) — saturating at the first state, never negative — and three
Retreat presses from state 2 end at 0. -/
theorem retreat_saturating (s : Nat) (b : Bool) (l : List Nat) (scanCode mods : Int)
    (h : s ≤ 2) :
    ((keyCallbackListener ⟨s, b, l⟩ GLFW_KEY_LEFT scanCode GLFW_PRESS
          mods).windowSceneDisplay : Int)
        = max ((s : Int) - 1) 0
    ∧ (processEvents ⟨2, false, []⟩
        [retreatEvent, retreatEvent, retreatEvent]).windowSceneDisplay = 0 := by
  refine ⟨?_, by decide⟩
  rw [keyCallback_retreat_cursor]
  show ((s - 1 : Nat) : Int) = max ((s : Int) - 1) 0
  rcases le_or_lt ((s : Int) - 1) 0 with hle | hlt
  · rw [max_eq_right hle]; omega
  · rw [max_eq_left (le_of_lt hlt)]; omega

theorem retreat_saturating_witness :
    (0 : Nat) ≤ 2 ∧
      (((keyCallbackListener ⟨0, false, []⟩ GLFW_KEY_LEFT 0 GLFW_PRESS
            0).windowSceneDisplay : Int)
          = max ((0 : Nat) - 1 : Int) 0
        ∧ (processEvents ⟨2, false, []⟩
            [retreatEvent, retreatEvent, retreatEvent]).windowSceneDisplay = 0) :=
  ⟨by decide, retreat_saturating 0 false [] 0 0 (by decide)⟩

/-- C4: from any starting state s in [0, 2], n Retreat presses with n ≥ s leave
the cursor at 0 (repeated Retreat converges to and stays at 0), and n Advance
presses with n ≥ 2 - s leave it at 2 (repeated Advance converges to and stays
at N - 1 = 2). -/
theorem repeated_transitions_converge (s n : Nat) (b : Bool) (l : List Nat) (h : s ≤ 2) :
    (s ≤ n →
      (processEvents ⟨s, b, l⟩ (List.replicate n retreatEvent)).windowSceneDisplay = 0)
    ∧ (2 - s ≤ n →
      (processEvents ⟨s, b, l⟩ (List.replicate n advanceEvent)).windowSceneDisplay = 2) := by
  constructor
  · intro hn
    rw [retreat_iter_cursor]
    show s - n = 0
    omega
  · intro hn
    rw [advance_iter_cursor _ _ h]
    show min (s + n) 2 = 2
    omega

theorem repeated_transitions_converge_witness :
    (1 : Nat) ≤ 2 ∧
      ((processEvents ⟨1, false, []⟩ (List.replicate 5 retreatEvent)).windowSceneDisplay = 0
      ∧ (processEvents ⟨1, false, []⟩ (List.replicate 5 advanceEvent)).windowSceneDisplay = 2) :=
  ⟨by decide,
    (repeated_transitions_converge 1 5 false [] (by decide)).1 (by decide),
    (repeated_transitions_converge 1 5 false [] (by decide)).2 (by decide)⟩

/-- C5: an escape press (Quit) sets the loop-termination signal
(`glfwSetWindowShouldClose(window, true)`) and leaves the cursor unchanged,
for every state — in particular from cursor 1 it stays 1. -/
theorem quit_signals_and_preserves_cursor (st : AppState) (scanCode mods : Int) :
    (keyCallbackListener st GLFW_KEY_ESCAPE scanCode GLFW_PRESS mods).windowShouldClose = true
    ∧ (keyCallbackListener st GLFW_KEY_ESCAPE scanCode GLFW_PRESS mods).windowSceneDisplay
        = st.windowSceneDisplay := by
  constructor <;>
    simp [keyCallbackListener, GLFW_PRESS, GLFW_KEY_LEFT, GLFW_KEY_RIGHT, GLFW_KEY_ESCAPE]

/-- C6: an event whose action is `GLFW_RELEASE` or `GLFW_REPEAT` causes no
transition at all: the callback returns the state unchanged (cursor,
should-close flag and log all identical); only `GLFW_PRESS` drives
transitions. -/
theorem release_and_repeat_ignored (st : AppState) (key scanCode mods action : Int)
    (h : action = GLFW_RELEASE ∨ action = GLFW_REPEAT) :
    keyCallbackListener st key scanCode action mods = st := by
  rcases h with h | h <;> subst h <;>
    simp [keyCallbackListener, GLFW_PRESS, GLFW_RELEASE, GLFW_REPEAT]

theorem release_and_repeat_ignored_witness :
    ((GLFW_RELEASE = GLFW_RELEASE ∨ GLFW_RELEASE = GLFW_REPEAT)
    ∧ keyCallbackListener ⟨1, false, []⟩ GLFW_KEY_RIGHT 0 GLFW_RELEASE 0 = ⟨1, false, []⟩) :=
  ⟨Or.inl rfl,
    release_and_repeat_ignored ⟨1, false, []⟩ GLFW_KEY_RIGHT 0 0 GLFW_RELEASE (Or.inl rfl)⟩

/-- C9: every Advance or Retreat press — the saturating boundary no-ops
included — appends a log entry holding the new cursor value
(`cout << "Escena actual: " << WindowSceneDisplay`), and the log content has
no influence on which transition is taken: the resulting cursor does not
depend on the log. -/
theorem transition_emits_new_state_log (s : Nat) (b : Bool) (l l' : List Nat)
    (key scanCode mods : Int) (h : key = GLFW_KEY_LEFT ∨ key = GLFW_KEY_RIGHT) :
    (keyCallbackListener ⟨s, b, l⟩ key scanCode GLFW_PRESS mods).log
        = l ++ [(keyCallbackListener ⟨s, b, l⟩ key scanCode GLFW_PRESS mods).windowSceneDisplay]
    ∧ (keyCallbackListener ⟨s, b, l⟩ key scanCode GLFW_PRESS mods).windowSceneDisplay
        = (keyCallbackListener ⟨s, b, l'⟩ key scanCode GLFW_PRESS mods).windowSceneDisplay := by
  rcases h with h | h <;> subst h <;>
    constructor <;>
    by_cases hc : 0 < s <;>
    by_cases hc2 : s < 2 <;>
    simp [keyCallbackListener, GLFW_PRESS, GLFW_KEY_LEFT, GLFW_KEY_RIGHT, GLFW_KEY_ESCAPE,
      hc, hc2]

theorem transition_emits_new_state_log_witness :
    ((GLFW_KEY_LEFT = GLFW_KEY_LEFT ∨ GLFW_KEY_LEFT = GLFW_KEY_RIGHT)
    ∧ ((keyCallbackListener ⟨0, false, [7]⟩ GLFW_KEY_LEFT 0 GLFW_PRESS 0).log
          = [7] ++ [(keyCallbackListener ⟨0, false, [7]⟩ GLFW_KEY_LEFT 0
              GLFW_PRESS 0).windowSceneDisplay]
      ∧ (keyCallbackListener ⟨0, false, [7]⟩ GLFW_KEY_LEFT 0 GLFW_PRESS 0).windowSceneDisplay
          = (keyCallbackListener ⟨0, false, []⟩ GLFW_KEY_LEFT 0
              GLFW_PRESS 0).windowSceneDisplay)) :=
  ⟨Or.inl rfl, transition_emits_new_state_log 0 false [7] [] GLFW_KEY_LEFT 0 0 (Or.inl rfl)⟩

/-- C10: a press of any key other than left-arrow, right-arrow and escape
leaves the cursor and the should-close flag unchanged, and still appends the
diagnostic log line carrying the unchanged cursor value. -/
theorem other_key_press_only_logs (s : Nat) (b : Bool) (l : List Nat)
    (key scanCode mods : Int) (h1 : key ≠ GLFW_KEY_LEFT) (h2 : key ≠ GLFW_KEY_RIGHT)
    (h3 : key ≠ GLFW_KEY_ESCAPE) :
    keyCallbackListener ⟨s, b, l⟩ key scanCode GLFW_PRESS mods
      = ⟨s, b, l ++ [s]⟩ := by
  simp [keyCallbackListener, GLFW_PRESS, h1, h2, h3]

theorem other_key_press_only_logs_witness :
    ((65 : Int) ≠ GLFW_KEY_LEFT ∧ (65 : Int) ≠ GLFW_KEY_RIGHT ∧ (65 : Int) ≠ GLFW_KEY_ESCAPE)
    ∧ keyCallbackListener ⟨1, false, []⟩ 65 0 GLFW_PRESS 0 = ⟨1, false, [1]⟩ :=
  ⟨⟨by decide, by decide, by decide⟩,
    other_key_press_only_logs 1 false [] 65 0 0 (by decide) (by decide) (by decide)⟩

/-- C7: registry lookup is pure and the registry is immutable — for every
index i in [0, 2], lookups at the same i agree structurally (same vertices,
background color and fragment shader source) across any two calls, whatever
arguments `getFiguresShapes` received at each call site; every such lookup
yields a value; and every call builds exactly 3 entries, with the background
table also fixed at 3 rows. -/
theorem sceneRegistry_get_pure (fa fb : Nat) (ca cb : Int) (i : Nat) (h : i ≤ 2) :
    sceneRegistryGet fa ca i = sceneRegistryGet fb cb i
    ∧ (sceneRegistryGet fa ca i).isSome = true
    ∧ (getFiguresShapes fa ca).length = 3
    ∧ SCENE_BACKGROUND.length = 3 := by
  refine ⟨rfl, ?_, rfl, rfl⟩
  interval_cases i <;> rfl

theorem sceneRegistry_get_pure_witness :
    (2 : Nat) ≤ 2 ∧
      (sceneRegistryGet 0 1 2 = sceneRegistryGet 2 3 2
      ∧ (sceneRegistryGet 0 1 2).isSome = true
      ∧ (getFiguresShapes 0 1).length = 3
      ∧ SCENE_BACKGROUND.length = 3) :=
  ⟨by decide, sceneRegistry_get_pure 0 2 1 3 2 (by decide)⟩

/-- C8: every figure in the registry has a vertex sequence whose length is a
positive multiple of 3 (here 27, the size of `VertexArray`), and in the
minimal-triangle variant the vertex array of the scene at index 0 has length
exactly 9. -/
theorem scene_vertices_positive_triples (figure : Nat) (coordFactor : Int) :
    ((getFiguresShapes figure coordFactor).all fun f =>
        decide (0 < f.figureVertex.length ∧ f.figureVertex.length % 3 = 0)) = true
    ∧ minimalTriangleVertices.length = 9 :=
  ⟨rfl, rfl⟩

end LearningOpenGL
